import Mathlib

/-!
Verification of the salt-nextcloud-formula repository: a shallow embedding of
the `occ` command builder, the output interpreters and the state-convergence
functions of `src/_modules/nextcloud_server.py` and
`src/_states/nextcloud_server.py`, with theorems settling the frozen claims.

Machine integers do not occur (Python ints are unbounded); strings are
modelled by Lean `String`, with the Python string operations
(`startswith`, `in`, slicing) implemented over the character list so that
every definition evaluates inside the kernel.
-/

namespace Nextcloud

/-- Python `s.startswith(pre)`. -/
def pyStartsWith (s pre : String) : Bool := pre.data.isPrefixOf s.data

/-- Helper for `pyIn`: does `pat` occur as a contiguous sublist? -/
def subOccursAux (pat : List Char) : List Char → Bool
  | [] => pat.isPrefixOf []
  | c :: rest => pat.isPrefixOf (c :: rest) || subOccursAux pat rest

/-- Python `pat in s` (substring containment). -/
def pyIn (pat s : String) : Bool := subOccursAux pat.data s.data

/-- A parameter value as passed to `occ`: Python callers pass either a string
or an integer (e.g. `group_list` passes `limit`/`offset` as ints). -/
inductive PVal where
  | s (v : String)
  | n (v : Int)
deriving DecidableEq, Repr

/-- The value formatting of `occ` (module, lines 173-178): a string value that
does not already start with a double quote is wrapped in single quotes
(`val_fmt = "'{}'"`); a string starting with a double quote and an integer
are rendered verbatim (`val_fmt = "{}"`). -/
def fmtParamVal : PVal → String
  | .s v => if pyStartsWith v "\"" then v else "'" ++ v ++ "'"
  | .n v => toString v

/-- Flag normalization of `occ` (module, line 171): a flag not already starting
with a hyphen gets a leading `--`. -/
def fmtFlag (f : String) : String :=
  if pyStartsWith f "-" then f else "--" ++ f

/-- Result of building one `occ` invocation. Python's `occ` mutates the
caller-supplied `parameters` and `flags` list objects in place
(`parameters.append(("output", "json"))`, `flags.append("no-interaction")`,
module lines 155-158); the embedding returns the lists as they stand after
the call so aliasing callers can be modelled by threading them through. -/
structure OccBuilt where
  tokens : List String
  paramsAfter : List (String × PVal)
  flagsAfter : List String
deriving DecidableEq, Repr

/-- The command construction of `occ` (module, lines 138-180): append the
`("output", "json")` parameter when `json` is set, always append the
`no-interaction` flag, then build
`php [--define apc.enable_cli=1] ./occ <command> <flags> <--param value>* -- <arguments>`. -/
def occ (command : String) (arguments : List String)
    (parameters : List (String × PVal)) (flags : List String)
    (json : Bool) (ensureApc : Bool) : OccBuilt :=
  let parameters := if json then parameters ++ [("output", PVal.s "json")] else parameters
  let flags := flags ++ ["no-interaction"]
  let cmd :=
    ["php"]
    ++ (if ensureApc then ["--define", "apc.enable_cli=1"] else [])
    ++ ["./occ", command]
    ++ flags.map fmtFlag
    ++ parameters.flatMap (fun pv => ["--" ++ pv.1, fmtParamVal pv.2])
    ++ ["--"] ++ arguments
  ⟨cmd, parameters, flags⟩

/-- The token list built for the `config:system:set` invocation of the C7
round-trip scenario: parameters `[("value", "hello world"), ("type", "string")]`,
flags `["update-only"]`, `json=False` as at the `config_system_set` call site
(module, lines 1571-1582), default `ensure_apc=True`. -/
def c7Tokens : List String :=
  (occ "config:system:set" ["loglevel"]
    [("value", PVal.s "hello world"), ("type", PVal.s "string")]
    ["update-only"] false true).tokens

/-- Python `x or d` on an optional string, where both `None` and the empty
string are falsy (the module's optional string parameters use exactly this
idiom); the empty string models an absent argument. -/
def pyOr (a d : String) : String := if a = "" then d else a

/-- The parameter list `install` builds (module, lines 389-436): database
family first (with the database password passed as the pre-quoted shell
reference `"$NC_DB_PASS"`), then the admin account (password as
`"$NC_ADMIN_PASS"`), then the data directory. Absent optional arguments are
the empty string (falsy in Python like the `None` default). -/
def installParams (database database_name database_host database_user
    database_table_space admin_user admin_email datadir webroot : String) :
    List (String × PVal) :=
  (if database ≠ "" then [("database", PVal.s database)] else [])
  ++ (if database ≠ "" ∧ database ≠ "sqlite" then
        [("database-name", PVal.s (pyOr database_name "nextcloud")),
         ("database-host", PVal.s (pyOr database_host "localhost")),
         ("database-user", PVal.s (pyOr database_user "nextcloud")),
         ("database-pass", PVal.s "\"$NC_DB_PASS\"")]
        ++ (if database = "oci" ∧ database_table_space ≠ "" then
              [("database-table-space", PVal.s database_table_space)] else [])
      else [])
  ++ (if admin_user ≠ "" then [("admin-user", PVal.s admin_user)] else [])
  ++ [("admin-pass", PVal.s "\"$NC_ADMIN_PASS\"")]
  ++ (if admin_email ≠ "" then [("admin-email", PVal.s admin_email)] else [])
  ++ [("data-dir", PVal.s (pyOr datadir (webroot ++ "/data")))]

/-- The environment overlay `install` builds (module, lines 411-412 and
428-429): `NC_DB_PASS` only for a non-sqlite database, always
`NC_ADMIN_PASS`. -/
def installEnv (database database_pass admin_pass : String) :
    List (String × String) :=
  (if database ≠ "" ∧ database ≠ "sqlite" then [("NC_DB_PASS", database_pass)] else [])
  ++ [("NC_ADMIN_PASS", admin_pass)]

/-- `install` (module, lines 268-449): the built `maintenance:install`
invocation (no positional arguments, no flags, `json=False`) together with
its environment overlay. `quiet=True` and `python_shell=True` only affect
process execution, not the token sequence. -/
def install (database database_name database_host database_user
    database_table_space admin_user admin_email datadir webroot : String)
    (database_pass admin_pass : String) (ensureApc : Bool) :
    OccBuilt × List (String × String) :=
  (occ "maintenance:install" []
      (installParams database database_name database_host database_user
        database_table_space admin_user admin_email datadir webroot)
      [] false ensureApc,
   installEnv database database_pass admin_pass)

/-- `user_add` (module, lines 3249-3283): arguments `[user_id]`, flag
`password-from-env`, optional `display-name` parameter and one `group`
parameter per group, `json=False`; the password goes only into the `OC_PASS`
environment variable. -/
def user_add (user_id display_name : String) (group : List String)
    (password : String) (ensureApc : Bool) : OccBuilt × List (String × String) :=
  let params := (if display_name ≠ "" then [("display-name", PVal.s display_name)] else [])
      ++ group.map (fun g => ("group", PVal.s g))
  (occ "user:add" [user_id] params ["password-from-env"] false ensureApc,
   [("OC_PASS", password)])

/-- `user_add_app_password` (module, lines 3319-3346): arguments `[user_id]`,
flag `password-from-env`, `json=False`; the password goes only into the
`NC_PASS` environment variable (the source comments "needs to be NC_PASS,
not OC_PASS"). -/
def user_add_app_password (user_id password : String) (ensureApc : Bool) :
    OccBuilt × List (String × String) :=
  (occ "user:add-app-password" [user_id] [] ["password-from-env"] false ensureApc,
   [("NC_PASS", password)])

/-- `user_resetpassword` (module, lines 3683-3709): arguments `[user_id]`,
flag `password-from-env`, `json=False`; the password goes only into the
`OC_PASS` environment variable. -/
def user_resetpassword (user_id password : String) (ensureApc : Bool) :
    OccBuilt × List (String × String) :=
  (occ "user:resetpassword" [user_id] [] ["password-from-env"] false ensureApc,
   [("OC_PASS", password)])

/-- C7 counterexample: building the `config:system:set` command with
parameters `[("value", "hello world"), ("type", "string")]` and flags
`["update-only"]` yields no unquoted token `string` anywhere — the type
value is emitted single-quoted as `'string'` (every plain string value not
already starting with a double quote is quoted), so the claimed token pair
`--type string` with the type token unquoted does not occur. -/
theorem c7_type_token_is_quoted : "string" ∉ c7Tokens ∧ "'string'" ∈ c7Tokens := by
  decide

/-- C7 (amended): the built token sequence contains `--update-only`,
`--value 'hello world'` and `--type 'string'` in that relative order — flags
before parameters, parameters in insertion order, then the `--` separator
and the positional argument — with the free-text value quoted and the type
token quoted as well, since the builder single-quotes every string value
that is not already double-quoted by the caller. -/
theorem c7_roundtrip_amended :
    c7Tokens = ["php", "--define", "apc.enable_cli=1", "./occ", "config:system:set",
      "--update-only", "--no-interaction", "--value", "'hello world'",
      "--type", "'string'", "--", "loglevel"] := by
  decide

/-- C10: `occ` appends `("output", "json")` to the caller's parameter list
when `json` is set and always appends `no-interaction` to the caller's flag
list, so every built command contains `--no-interaction`, and a second call
that reuses the same (mutated) list objects emits the `--no-interaction`
and `--output` tokens once more than the first call did. -/
theorem c10_occ_mutates_caller_lists :
    (∀ (cmd : String) (args : List String) (ps : List (String × PVal))
       (fs : List String) (json apc : Bool),
       "--no-interaction" ∈ (occ cmd args ps fs json apc).tokens) ∧
    (∀ (cmd : String) (args : List String) (ps : List (String × PVal))
       (fs : List String) (apc : Bool),
       ((occ cmd args ps fs true apc).paramsAfter = ps ++ [("output", PVal.s "json")]
         ∧ (occ cmd args ps fs true apc).flagsAfter = fs ++ ["no-interaction"]) ∧
       (let r1 := occ cmd args ps fs true apc
        let r2 := occ cmd args r1.paramsAfter r1.flagsAfter true apc
        r2.tokens.count "--no-interaction" = r1.tokens.count "--no-interaction" + 1 ∧
        r2.tokens.count "--output" = r1.tokens.count "--output" + 1)) := by
  refine ⟨fun cmd args ps fs json apc => ?_, fun cmd args ps fs apc => ⟨⟨rfl, rfl⟩, ?_⟩⟩
  · simp [occ, fmtFlag, pyStartsWith]
  · simp only [occ, if_true, List.map_append, List.flatMap_append, List.append_assoc,
      List.count_append]
    constructor <;> simp [fmtFlag, fmtParamVal, pyStartsWith, List.count_cons] <;> omega

/-- C9: for every password-taking operation the built token sequence is
identical for any two password values (the secret never reaches the
argument list), and the secret is passed solely through the per-capability
environment variable, whose name is preserved exactly: `OC_PASS` for
`user:add` and `user:resetpassword`, `NC_PASS` for `user:add-app-password`,
and `NC_DB_PASS`/`NC_ADMIN_PASS` referenced as pre-quoted shell variables
for `maintenance:install`. -/
theorem c9_secrets_only_via_env :
    (∀ uid dn grp pw pw' apc,
       (user_add uid dn grp pw apc).1 = (user_add uid dn grp pw' apc).1) ∧
    (∀ uid dn grp pw apc,
       (user_add uid dn grp pw apc).2 = [("OC_PASS", pw)] ∧
       "--password-from-env" ∈ (user_add uid dn grp pw apc).1.tokens) ∧
    (∀ uid pw pw' apc,
       (user_add_app_password uid pw apc).1 = (user_add_app_password uid pw' apc).1) ∧
    (∀ uid pw apc,
       (user_add_app_password uid pw apc).2 = [("NC_PASS", pw)] ∧
       "--password-from-env" ∈ (user_add_app_password uid pw apc).1.tokens) ∧
    (∀ uid pw pw' apc,
       (user_resetpassword uid pw apc).1 = (user_resetpassword uid pw' apc).1) ∧
    (∀ uid pw apc,
       (user_resetpassword uid pw apc).2 = [("OC_PASS", pw)] ∧
       "--password-from-env" ∈ (user_resetpassword uid pw apc).1.tokens) ∧
    (∀ db dn dh du dts au ae dd wr dbp dbp' ap ap' apc,
       (install db dn dh du dts au ae dd wr dbp ap apc).1
         = (install db dn dh du dts au ae dd wr dbp' ap' apc).1) ∧
    (∀ db dn dh du dts au ae dd wr dbp ap apc,
       (install db dn dh du dts au ae dd wr dbp ap apc).2
         = (if db ≠ "" ∧ db ≠ "sqlite" then [("NC_DB_PASS", dbp)] else [])
           ++ [("NC_ADMIN_PASS", ap)] ∧
       ("admin-pass", PVal.s "\"$NC_ADMIN_PASS\"")
         ∈ installParams db dn dh du dts au ae dd wr ∧
       (db ≠ "" ∧ db ≠ "sqlite" →
         ("database-pass", PVal.s "\"$NC_DB_PASS\"")
           ∈ installParams db dn dh du dts au ae dd wr)) := by
  refine ⟨fun _ _ _ _ _ _ => rfl, fun uid dn grp pw apc => ⟨rfl, ?_⟩,
    fun _ _ _ _ => rfl, fun uid pw apc => ⟨rfl, ?_⟩,
    fun _ _ _ _ => rfl, fun uid pw apc => ⟨rfl, ?_⟩,
    fun _ _ _ _ _ _ _ _ _ _ _ _ _ _ => rfl,
    fun db dn dh du dts au ae dd wr dbp ap apc => ⟨rfl, ?_, fun hdb => ?_⟩⟩
  · simp [user_add, occ, fmtFlag, pyStartsWith]
  · simp [user_add_app_password, occ, fmtFlag, pyStartsWith]
  · simp [user_resetpassword, occ, fmtFlag, pyStartsWith]
  · simp [installParams]
  · simp [installParams, hdb.1, hdb.2]

/-- Witness for `c9_secrets_only_via_env`: the non-sqlite `install` branch at
a concrete input, with both hypotheses of the final conjunct discharged. -/
theorem c9_secrets_only_via_env_witness :
    ("database-pass", PVal.s "\"$NC_DB_PASS\"")
      ∈ installParams "mysql" "" "" "" "" "" "" "" "/var/www/nextcloud" ∧
    (install "mysql" "" "" "" "" "" "" "" "/var/www/nextcloud" "hunter2" "hunter3" true).2
      = [("NC_DB_PASS", "hunter2"), ("NC_ADMIN_PASS", "hunter3")] := by
  refine ⟨(c9_secrets_only_via_env.2.2.2.2.2.2.2 "mysql" "" "" "" "" "" "" ""
      "/var/www/nextcloud" "hunter2" "hunter3" true).2.2 (by decide), ?_⟩
  have h := (c9_secrets_only_via_env.2.2.2.2.2.2.2 "mysql" "" "" "" "" "" "" ""
      "/var/www/nextcloud" "hunter2" "hunter3" true).1
  simpa using h

/-! ## group_exists (module, lines 2207-2261) -/

/-- Exit code and captured output of one external-tool invocation. -/
structure ExecResult where
  retcode : Int
  stdout : String
  stderr : String
deriving DecidableEq, Repr

/-- Description of an `occ` invocation as issued by a module function. -/
structure OccInvocation where
  command : String
  arguments : List String
  json : Bool
  expectError : Bool
deriving DecidableEq, Repr

/-- The sentinel user id of `group_exists` (module, line 2230). -/
def sentinelUser : String := "le7s_hop3_n0_0ne_cr34t3s_a_user_l1ke_thi5"

/-- The single probe `group_exists` issues: `group:removeuser` on the group
and the sentinel member, with `json=False` and `expect_error=True`. -/
def groupExistsProbe (groupid : String) : OccInvocation :=
  ⟨"group:removeuser", [groupid, sentinelUser], false, true⟩

/-- The invariant-violation message `group_exists` raises on a zero exit
code (module, lines 2245-2250). -/
def groupExistsCollisionMsg (groupid : String) : String :=
  "Uhm, did you actually create a user named 'le7s_hop3_n0_0ne_cr34t3s_a_user_l1ke_thi5' and added it to group '"
  ++ groupid ++ "'? Well, he's gone from that group now, sorry."

/-- The unexpected-output message of `group_exists` (module, lines 2257-2261),
embedding the raw stdout and stderr. -/
def groupExistsUnexpectedMsg (groupid : String) (out : ExecResult) : String :=
  "An unexpected error occured while trying to determine if group '" ++ groupid
  ++ "' exists. The output was:\n\nstdout:\n" ++ out.stdout
  ++ "\n\nstderr:\n" ++ out.stderr ++ "\n"

/-- The result interpretation of `group_exists` (module, lines 2245-2261):
a zero exit code raises the sentinel-collision invariant violation; stdout
containing "group not found" means the group is absent; stdout containing
"user not found" means the sentinel member was absent, so the group exists;
anything else raises with the raw output embedded. -/
def group_exists (groupid : String) (out : ExecResult) : Except String Bool :=
  if out.retcode = 0 then .error (groupExistsCollisionMsg groupid)
  else if pyIn "group not found" out.stdout then .ok false
  else if pyIn "user not found" out.stdout then .ok true
  else .error (groupExistsUnexpectedMsg groupid out)

/-- C4: the group-existence probe is the fixed sentinel `group:removeuser`
invocation (so the check never touches real membership as long as the
sentinel does not collide), and for every probe outcome: a zero exit code
raises the invariant-violation failure; a failing probe whose stdout
contains "group not found" returns `false`; a failing probe whose stdout
contains "user not found" (sentinel member absent, group message not
present) returns `true`; any other failing probe raises a failure embedding
the raw stdout and stderr. -/
theorem c4_group_exists_branches :
    (∀ gid, groupExistsProbe gid
        = ⟨"group:removeuser", [gid, sentinelUser], false, true⟩) ∧
    ∀ (gid : String) (out : ExecResult),
      (out.retcode = 0 → group_exists gid out = .error (groupExistsCollisionMsg gid)) ∧
      (out.retcode ≠ 0 → pyIn "group not found" out.stdout = true →
        group_exists gid out = .ok false) ∧
      (out.retcode ≠ 0 → pyIn "group not found" out.stdout = false →
        pyIn "user not found" out.stdout = true →
        group_exists gid out = .ok true) ∧
      (out.retcode ≠ 0 → pyIn "group not found" out.stdout = false →
        pyIn "user not found" out.stdout = false →
        group_exists gid out
          = .error ("An unexpected error occured while trying to determine if group '"
              ++ gid ++ "' exists. The output was:\n\nstdout:\n" ++ out.stdout
              ++ "\n\nstderr:\n" ++ out.stderr ++ "\n")) := by
  refine ⟨fun _ => rfl, fun gid out => ⟨fun h0 => ?_, fun h0 hg => ?_,
    fun h0 hg hu => ?_, fun h0 hg hu => ?_⟩⟩
  · simp [group_exists, h0]
  · simp [group_exists, h0, hg]
  · simp [group_exists, h0, hg, hu]
  · simp [group_exists, h0, hg, hu, groupExistsUnexpectedMsg]

/-- Witness for `c4_group_exists_branches`: all four branches applied at
concrete probe outcomes. -/
theorem c4_group_exists_branches_witness :
    group_exists "g" ⟨0, "", ""⟩ = .error (groupExistsCollisionMsg "g") ∧
    group_exists "g" ⟨1, "Error: group not found", ""⟩ = .ok false ∧
    group_exists "g" ⟨1, "Error: user not found", ""⟩ = .ok true ∧
    group_exists "g" ⟨1, "weird", "boom"⟩
      = .error ("An unexpected error occured while trying to determine if group '"
          ++ "g" ++ "' exists. The output was:\n\nstdout:\n" ++ "weird"
          ++ "\n\nstderr:\n" ++ "boom" ++ "\n") :=
  ⟨((c4_group_exists_branches.2 "g" ⟨0, "", ""⟩).1 rfl),
   ((c4_group_exists_branches.2 "g" ⟨1, "Error: group not found", ""⟩).2.1
      (by decide) (by decide)),
   ((c4_group_exists_branches.2 "g" ⟨1, "Error: user not found", ""⟩).2.2.1
      (by decide) (by decide) (by decide)),
   ((c4_group_exists_branches.2 "g" ⟨1, "weird", "boom"⟩).2.2.2
      (by decide) (by decide) (by decide))⟩

/-! ## update_check (module, lines 3144-3192) -/

/-- Digit or dot, the character class `[\d\.]` of the update_check regexes. -/
def isDigitDot (c : Char) : Bool := c.isDigit || c == '.'

/-- Python `int` on a nonempty digit string. -/
def digitsToNat (l : List Char) : Nat := l.foldl (fun acc c => acc * 10 + (c.toNat - 48)) 0

/-- One line matched against `^Nextcloud ([\d\.]+) is available` (multiline,
not end-anchored): the captured version, if the line matches. The greedy
`[\d\.]+` must be the maximal digit-dot run, since the following literal
starts with a space. -/
def ncUpdateLine (line : List Char) : Option String :=
  if "Nextcloud ".data.isPrefixOf line then
    let rest := line.drop 10
    let d := rest.takeWhile isDigitDot
    if d.length != 0 && " is available".data.isPrefixOf (rest.drop d.length) then
      some (String.mk d)
    else none
  else none

/-- One line matched against
`^Update for ([\S]+) to version ([\d\.]+) is available\.$` (both anchors):
the captured (app, version), if the line matches. `[\S]+` cannot contain the
space that must follow, so it is the maximal non-whitespace run. -/
def appUpdateLine (line : List Char) : Option (String × String) :=
  if "Update for ".data.isPrefixOf line then
    let rest := line.drop 11
    let name := rest.takeWhile (fun c => !c.isWhitespace)
    let r2 := rest.drop name.length
    if name.length != 0 && " to version ".data.isPrefixOf r2 then
      let r3 := r2.drop 12
      let d := r3.takeWhile isDigitDot
      if d.length != 0 && decide (r3.drop d.length = " is available.".data) then
        some (String.mk name, String.mk d)
      else none
    else none
  else none

/-- One line matched against `^([\d]+) update(s|) available` (multiline, not
end-anchored): the first capture group (the digits), if the line matches. -/
def countUpdateLine (line : List Char) : Option (List Char) :=
  let d := line.takeWhile Char.isDigit
  if d.length != 0 then
    let r := line.drop d.length
    if " updates available".data.isPrefixOf r || " update available".data.isPrefixOf r then
      some d
    else none
  else none

/-- All server-update captures of the output, in line order
(`re.findall` with `re.MULTILINE` matches at most once per line here). -/
def systemUpdates (stdout : String) : List String :=
  (stdout.data.splitOn '\n').filterMap ncUpdateLine

/-- All app-update captures of the output, in line order. -/
def appUpdates (stdout : String) : List (String × String) :=
  (stdout.data.splitOn '\n').filterMap appUpdateLine

/-- All count-line captures of the output, in line order. -/
def updateCounts (stdout : String) : List (List Char) :=
  (stdout.data.splitOn '\n').filterMap countUpdateLine

/-- Python dict assignment `d[k] = v`: replace in place when the key exists,
append otherwise. -/
def pyDictSet (d : List (String × String)) (k v : String) : List (String × String) :=
  if d.any (fun kv => kv.1 == k) then d.map (fun kv => if kv.1 == k then (k, v) else kv)
  else d ++ [(k, v)]

/-- Python `dict(pairs)`: insertion order with later duplicates overriding. -/
def pyDictOf (l : List (String × String)) : List (String × String) :=
  l.foldl (fun d kv => pyDictSet d kv.1 kv.2) []

/-- The parse-inconsistency message of `update_check` (module, lines
3181-3185), embedding the raw output. -/
def updateCheckErrMsg (stdout : String) : String :=
  "Something went wrong parsing the following Nextcloud output:\n\n" ++ stdout

/-- The mapping `update_check` returns on a consistent parse: `dict(apps)`,
then `Nextcloud` mapped to the first server capture when one exists. -/
def updateMapping (stdout : String) : List (String × String) :=
  match systemUpdates stdout with
  | [] => pyDictOf (appUpdates stdout)
  | v :: _ => pyDictSet (pyDictOf (appUpdates stdout)) "Nextcloud" v

/-- The output interpretation of `update_check` (module, lines 3167-3192):
"Everything up to date" short-circuits to the empty mapping; otherwise the
itemized captures are cross-validated against the announced count
(`int(count[0][0])`), a missing count line or a mismatch raising the
parse-inconsistency failure, and a consistent parse returning the mapping. -/
def update_check (stdout : String) : Except String (List (String × String)) :=
  if pyIn "Everything up to date" stdout then .ok []
  else
    match updateCounts stdout with
    | [] => .error (updateCheckErrMsg stdout)
    | c :: _ =>
      if (systemUpdates stdout).length + (appUpdates stdout).length = digitsToNat c then
        .ok (updateMapping stdout)
      else .error (updateCheckErrMsg stdout)

/-- C8: for every tool output that does not contain "Everything up to date",
`update_check` raises the parsing-inconsistency failure embedding the raw
output whenever no count line is present or the number of parsed server
lines plus app lines differs from the announced count, and otherwise
returns the mapping of app names (plus `Nextcloud` for a server update) to
available versions. -/
theorem c8_update_check_cross_validates (stdout : String)
    (hmarker : pyIn "Everything up to date" stdout = false) :
    (updateCounts stdout = [] →
      update_check stdout
        = .error ("Something went wrong parsing the following Nextcloud output:\n\n"
            ++ stdout)) ∧
    (∀ c rest, updateCounts stdout = c :: rest →
      (systemUpdates stdout).length + (appUpdates stdout).length ≠ digitsToNat c →
      update_check stdout
        = .error ("Something went wrong parsing the following Nextcloud output:\n\n"
            ++ stdout)) ∧
    (∀ c rest, updateCounts stdout = c :: rest →
      (systemUpdates stdout).length + (appUpdates stdout).length = digitsToNat c →
      update_check stdout = .ok (updateMapping stdout)) := by
  refine ⟨fun hc => ?_, fun c rest hc hne => ?_, fun c rest hc he => ?_⟩
  · simp [update_check, hmarker, hc, updateCheckErrMsg]
  · simp [update_check, hmarker, hc, hne, updateCheckErrMsg]
  · simp [update_check, hmarker, hc, he]

/-- Witness for `c8_update_check_cross_validates`: a consistent two-update
output returns the mapping, and an output announcing one update but
itemizing none raises the failure embedding the raw output. -/
theorem c8_update_check_cross_validates_witness :
    update_check "Nextcloud 25.0.2 is available. Get more information on how to update at https://nextcloud.com\nUpdate for calendar to version 4.2.0 is available.\n2 updates available"
      = .ok [("calendar", "4.2.0"), ("Nextcloud", "25.0.2")] ∧
    update_check "1 update available"
      = .error ("Something went wrong parsing the following Nextcloud output:\n\n"
          ++ "1 update available") := by
  constructor
  · have h := (c8_update_check_cross_validates
      "Nextcloud 25.0.2 is available. Get more information on how to update at https://nextcloud.com\nUpdate for calendar to version 4.2.0 is available.\n2 updates available"
      (by decide)).2.2 "2".data [] (by decide) (by decide)
    have hm : updateMapping "Nextcloud 25.0.2 is available. Get more information on how to update at https://nextcloud.com\nUpdate for calendar to version 4.2.0 is available.\n2 updates available"
        = [("calendar", "4.2.0"), ("Nextcloud", "25.0.2")] := by decide
    rw [h, hm]
  · exact (c8_update_check_cross_validates "1 update available" (by decide)).2.1
      "1".data [] (by decide) (by decide)

/-! ## JSON-like configuration values

Python configuration trees as handled by `config_import` and the state
functions: dictionaries with insertion-ordered string keys, strings,
booleans, ints, floats and lists. A float is carried as its decimal literal,
since the code only ever type-tests floats and renders them with `str`
(no arithmetic is performed on configuration values). -/

mutual
inductive JVal where
  | jstr (s : String)
  | jint (n : Int)
  | jfloat (lit : String)
  | jbool (b : Bool)
  | jdict (entries : JEntries)
  | jlist (items : JItems)
deriving DecidableEq, Repr
inductive JEntries where
  | nil
  | cons (k : String) (v : JVal) (rest : JEntries)
deriving DecidableEq, Repr
inductive JItems where
  | nil
  | cons (v : JVal) (rest : JItems)
deriving DecidableEq, Repr
end

/-- Python dict lookup `d[k]` / `k in d` on insertion-ordered entries (keys
are unique in a Python dict, so first match suffices). -/
def JEntries.lookup : JEntries → String → Option JVal
  | .nil, _ => none
  | .cons k v rest, key => if k = key then some v else JEntries.lookup rest key

/-- Python `str` on the scalar values that reach `config:system:set`/
`config:app:set` in the modelled flows. No modelled call site renders a
container with `str`, so containers map to an out-of-band marker. -/
def pyStr : JVal → String
  | .jstr s => s
  | .jint n => toString n
  | .jfloat lit => lit
  | .jbool b => if b then "True" else "False"
  | .jdict _ => "<unmodelled container repr>"
  | .jlist _ => "<unmodelled container repr>"

/-! ## config_import and the float workaround (module, lines 1155-1279) -/

/-! `find_double` (module, lines 1208-1214): the subtree of float leaves.
A float is returned as-is, a dict keeps exactly the children whose
`find_double` is not `None` (so a dict always yields a dict, possibly
empty), anything else yields `None`. -/
mutual
def findDouble : JVal → Option JVal
  | .jfloat lit => some (.jfloat lit)
  | .jdict es => some (.jdict (findDoubleEntries es))
  | _ => none
def findDoubleEntries : JEntries → JEntries
  | .nil => .nil
  | .cons k v rest =>
    match findDouble v with
    | some d => .cons k d (findDoubleEntries rest)
    | none => findDoubleEntries rest
end

/-! `filter_double` (module, lines 1216-1223): the tree with the float
leaves listed in `doubles` removed. A non-dict yields `None` (is dropped by
the caller); for a dict, a key found in `doubles` is filtered recursively
against its `doubles` entry, a key absent from `doubles` is kept as is. -/
mutual
def filterDouble : JVal → JVal → Option JVal
  | .jdict es, doubles => some (.jdict (filterEntries es doubles))
  | _, _ => none
def filterEntries : JEntries → JVal → JEntries
  | .nil, _ => .nil
  | .cons k v rest, doubles =>
    match doubles with
    | .jdict ds =>
      (match JEntries.lookup ds k with
       | some dv =>
         match filterDouble v dv with
         | some fv => .cons k fv (filterEntries rest doubles)
         | none => filterEntries rest doubles
       | none => .cons k v (filterEntries rest doubles))
    | _ => .cons k v (filterEntries rest doubles)
end

/-! `flatten_dict` (module, lines 1225-1231): leaf paths joined with the
separator (the accumulated prefix carries one trailing separator, stripped
at a leaf by `prefix[:-len(separator)]`). -/
mutual
def flattenDict (sep : String) : JVal → String → List (String × JVal)
  | .jdict es, pre => flattenEntries sep es pre
  | v, pre => [(String.mk (pre.data.take (pre.data.length - sep.data.length)), v)]
def flattenEntries (sep : String) : JEntries → String → List (String × JVal)
  | .nil, _ => []
  | .cons k v rest, pre => flattenDict sep v (pre ++ k ++ sep) ++ flattenEntries sep rest pre
end

/-- One call issued by a module or state function to the external tool
(through `occ`) or, for the state layer, to a module function that performs
exactly one such invocation. -/
inductive Call where
  | checkStatus
  | checkFull
  | configList
  | configSystemGet (name : String)
  | configSystemSet (name value vtype : String)
  | configImportOcc (payload : JVal)
  | groupExists (g : String)
  | groupList (limit offset : Nat)
  | groupAdd (g : String)
  | groupAdduser (g u : String)
  | groupRemoveuser (g u : String)
  | userExists (u : String)
  | userEnabled (u : String)
  | userAdd (u : String)
  | userEnable (u : String)
  | userDisable (u : String)
deriving DecidableEq, Repr

/-- Whether a call mutates the managed installation. The existence probes
(`group_exists` sentinel probe, `user:info`), listings, gets and `check`
runs are reads; everything else writes. -/
def Call.isMutating : Call → Bool
  | .configSystemSet _ _ _ => true
  | .configImportOcc _ => true
  | .groupAdd _ => true
  | .groupAdduser _ _ => true
  | .groupRemoveuser _ _ => true
  | .userAdd _ => true
  | .userEnable _ => true
  | .userDisable _ => true
  | _ => false

/-- The mutating calls of a trace. -/
def mutatingCalls (l : List Call) : List Call := l.filter Call.isMutating

/-- Python `s.split(sep)` for a nonempty separator, over character lists,
with structural fuel (each step consumes at least one character, so fuel
`l.length + 1` never runs out; the `0` case is unreachable padding). -/
def splitFuel (sep : List Char) : Nat → List Char → List Char → List (List Char)
  | 0, l, acc => [acc.reverse ++ l]
  | fuel + 1, l, acc =>
    match l with
    | [] => [acc.reverse]
    | c :: rest =>
      if sep ≠ [] ∧ sep.isPrefixOf (c :: rest) then
        acc.reverse :: splitFuel sep fuel (rest.drop (sep.length - 1)) []
      else splitFuel sep fuel rest (c :: acc)

/-- Python `s.split(sep)`. -/
def pySplit (sep s : String) : List String :=
  (splitFuel sep.data (s.data.length + 1) s.data []).map String.mk

/-- The individual scalar re-application loop of `config_import` (module,
lines 1249-1277): each flattened float path is split on `|||`; a `system`
scope yields one `config_system_set` call with `vtype="double"` and the
re-joined nested key; an `app` scope with a nested key raises, and
otherwise calls `config_app_set` with `vtype`/`separator` keyword arguments
that function does not accept (module line 1095), a Python `TypeError`. -/
def configImportSets : List (String × JVal) → Except String (List Call)
  | [] => .ok []
  | (p, val) :: rest =>
    match pySplit "|||" p with
    | [] => .error "ValueError: split returned no parts"
    | scope :: key =>
      if scope = "system" then
        match configImportSets rest with
        | .ok tail =>
          .ok (Call.configSystemSet (String.intercalate "|||" key) (pyStr val) "double" :: tail)
        | .error e => .error e
      else if scope = "app" then
        match key with
        | [] => .error "ValueError: not enough values to unpack"
        | app :: nested =>
          if nested.length > 1 then
            .error ("The app configuration for '" ++ app
              ++ "' contains a double inside a dictionary ("
              ++ String.intercalate ":" nested
              ++ "). This is currently unsupported by occ.")
          else .error "TypeError: config_app_set() got an unexpected keyword argument"
      else configImportSets rest

/-- `config_import` called with an in-memory configuration dict (module,
lines 1187-1279): when the installed version is below the fixed version
24.0.3 (the comparison itself is performed by the external `packaging`
library and enters the embedding as `belowFixedVersion`), the float leaves
are removed from the bulk `config:import` payload and re-applied
individually, strictly after the bulk import; otherwise the payload is sent
unmodified and no scalar call is made. The result is the ordered list of
issued calls (or the raised exception). -/
def config_import (belowFixedVersion : Bool) (config : JEntries) :
    Except String (List Call) :=
  let doubles0 := if belowFixedVersion then findDoubleEntries config else .nil
  let payload : JVal :=
    if belowFixedVersion then .jdict (filterEntries config (.jdict doubles0))
    else .jdict config
  let doubles := if belowFixedVersion then flattenEntries "|||" doubles0 "" else []
  match configImportSets doubles with
  | .ok sets => .ok (Call.configImportOcc payload :: sets)
  | .error e => .error e

/-- The C6 scenario configuration `{"system": {"ratio": 0.5}}`. -/
def ratioConfig : JEntries :=
  .cons "system" (.jdict (.cons "ratio" (.jfloat "0.5") .nil)) .nil

instance {α β : Type} [DecidableEq α] [DecidableEq β] : DecidableEq (Except α β) :=
  fun a b =>
    match a, b with
    | .ok x, .ok y =>
      match decEq x y with
      | isTrue h => isTrue (by rw [h])
      | isFalse h => isFalse (fun hh => h (Except.ok.inj hh))
    | .error x, .error y =>
      match decEq x y with
      | isTrue h => isTrue (by rw [h])
      | isFalse h => isFalse (fun hh => h (Except.error.inj hh))
    | .ok _, .error _ => isFalse (fun hh => Except.noConfusion hh)
    | .error _, .ok _ => isFalse (fun hh => Except.noConfusion hh)

/-- C6: importing `{"system": {"ratio": 0.5}}` below version 24.0.3 sends
the bulk payload with the float leaf `ratio` removed (the `system` dict
stays, emptied) and then issues exactly one `config_system_set` call for
key `ratio` with vtype `double` and value `0.5`, strictly after the bulk
import; at or above 24.0.3 the payload is sent unmodified and no scalar
set call occurs. -/
theorem c6_float_import_workaround :
    config_import true ratioConfig
      = .ok [Call.configImportOcc (.jdict (.cons "system" (.jdict .nil) .nil)),
             Call.configSystemSet "ratio" "0.5" "double"] ∧
    config_import false ratioConfig
      = .ok [Call.configImportOcc (.jdict ratioConfig)] := by
  decide

/-! ## The state layer (src/_states/nextcloud_server.py)

Each state function is embedded as a function of its arguments, the dry-run
toggle `test` (`__opts__["test"]`) and the current-state readings its
read-only module calls return, producing the Salt return dictionary and the
ordered list of module calls issued. Mutating module calls are assumed to
succeed (the module raises on failure; those exception paths are outside
every claim's scenario). -/

/-- A value stored in a state's `changes` dictionary. -/
inductive ChangeV where
  | s (v : String)
  | list (vs : List String)
  | kv (k : String) (v : JVal)
deriving DecidableEq, Repr

/-- The Salt state return dictionary: `result` is `True`, `False` or `None`
(would-change), with a comment and a changes dictionary. -/
structure StateRet where
  name : String
  result : Option Bool
  comment : String
  changes : List (String × ChangeV)
deriving DecidableEq, Repr

/-- The vtype autodiscovery of `config_set` (state, lines 521-529). Python's
`bool` is a subtype of `int`, so `isinstance(value, int)` matches booleans
first and the `boolean` branch is unreachable: a `jbool` is classified
`integer`. -/
def vtypeAuto : JVal → String
  | .jint _ => "integer"
  | .jbool _ => "integer"
  | .jfloat _ => "double"
  | _ => "string"

/-- The convergence core of `config_set` (state, lines 535-570), after vtype
resolution: compare the desired value with the stored one
(`config_system_get(name, "__UNSET", separator)`, whose result enters as
`currentVal`), then no-op, dry-run report, or mutate. -/
def configSetCore (name : String) (value : JVal) (vt : String) (test : Bool)
    (currentVal : JVal) : StateRet × List Call :=
  let reads := [Call.configSystemGet name]
  if value = currentVal then
    (⟨name, some true,
      "Nextcloud system setting '" ++ name ++ "' is already in the correct state.",
      []⟩, reads)
  else if test then
    (⟨name, none,
      "Nextcloud system setting '" ++ name ++ "' would have been updated.",
      [("config_set", ChangeV.kv name value)]⟩, reads)
  else
    (⟨name, some true,
      "Nextcloud system setting '" ++ name ++ "' has been updated.",
      [("config_set", ChangeV.kv name value)]⟩,
     reads ++ [Call.configSystemSet name (pyStr value) vt])

/-- `config_set` (state, lines 491-570): an explicit invalid vtype fails
before any module call; otherwise the autodiscovered or given vtype is used
by the convergence core. -/
def config_set (name : String) (value : JVal) (vtype : Option String)
    (test : Bool) (currentVal : JVal) : StateRet × List Call :=
  match vtype with
  | none => configSetCore name value (vtypeAuto value) test currentVal
  | some vt =>
    if ["string", "integer", "double", "boolean"].contains vt then
      configSetCore name value vt test currentVal
    else
      (⟨name, some false, "vtype '" ++ vt ++ "' is invalid.", []⟩, [])

/-- `user_present` (state, lines 991-1093): creation phase driven by the
`user_exists` reading, early return for a dry-run creation, then the
enabled/disabled adjustment driven by the `user_enabled` reading. The
`init_password` arguments are only forwarded to `user_add` and do not
influence control flow, so they are elided. -/
def user_present (name : String) (enabled test uExists curEnabled : Bool) :
    StateRet × List Call :=
  let (r1, t1) :=
    if uExists then
      ((⟨name, some true, "User '" ++ name ++ "' already exists.", []⟩ : StateRet),
       [Call.userExists name])
    else if test then
      (⟨name, none, "User '" ++ name ++ "' would have been created.",
        [("created", ChangeV.s name)]⟩, [Call.userExists name])
    else
      (⟨name, some true, "User '" ++ name ++ "' has been created.",
        [("created", ChangeV.s name)]⟩, [Call.userExists name, Call.userAdd name])
  if r1.result = none then
    if enabled then (r1, t1)
    else ({r1 with
      comment := r1.comment ++ " The user account would have been disabled after creation.",
      changes := r1.changes ++ [("disabled", ChangeV.s name)]}, t1)
  else
    let t2 := t1 ++ [Call.userEnabled name]
    let estr := if enabled then "enable" else "disable"
    if curEnabled = enabled then
      ({r1 with comment := r1.comment ++ " The account is already " ++ estr ++ "d."}, t2)
    else if test then
      ({r1 with
        result := none,
        comment := r1.comment ++ " The account would have been " ++ estr ++ "d.",
        changes := [(estr ++ "d", ChangeV.s name)]}, t2)
    else
      ({r1 with
        comment := r1.comment ++ " The account has been " ++ estr ++ "d.",
        changes := [(estr ++ "d", ChangeV.s name)]},
       t2 ++ [if enabled then Call.userEnable name else Call.userDisable name])

/-- Lookup of a group in one `group_list` page (Python dict membership and
access). -/
def lookupGroup : List (String × List String) → String → Option (List String)
  | [], _ => none
  | (k, ms) :: rest, g => if k = g then some ms else lookupGroup rest g

/-- The pagination loop of `group_present` (state, lines 890-899):
`while name not in current and iterations < max_iterations`, fetching
`group_list(limit=500, offset=500*iterations)` each round. Returns the
member list if found together with the `group_list` calls issued; the fuel
is the number of remaining iterations. -/
def groupFindAux (pages : Nat → Nat → List (String × List String)) (name : String) :
    Nat → Nat → Option (List String) × List Call
  | _, 0 => (none, [])
  | iter, fuel + 1 =>
    let page := pages 500 (500 * iter)
    match lookupGroup page name with
    | some ms => (some ms, [Call.groupList 500 (500 * iter)])
    | none =>
      let r := groupFindAux pages name (iter + 1) fuel
      (r.1, Call.groupList 500 (500 * iter) :: r.2)

/-- The membership-adjustment phase of `group_present` (state, lines
884-935): nothing to do without `addusers`/`delusers`; otherwise run the
pagination loop, report the inconclusive failure when the group was not
found within `max_iterations` pages, and otherwise add the missing and
remove the present users — with no check of `__opts__["test"]` in this
phase. -/
def groupMembershipPhase (pages : Nat → Nat → List (String × List String))
    (name : String) (addusers delusers : List String) (max_iterations : Nat)
    (ret : StateRet) (tr : List Call) : StateRet × List Call :=
  if addusers = [] ∧ delusers = [] then (ret, tr)
  else
    let found := groupFindAux pages name 0 max_iterations
    let tr := tr ++ found.2
    match found.1 with
    | none =>
      ({ret with
        result := some false,
        comment := ret.comment
          ++ " Could not find the group member list though. In case you have more than "
          ++ toString (500 * max_iterations) ++ " groups, try to increase max_iterations."},
       tr)
    | some current =>
      let uadd := addusers.filter (fun u => !current.contains u)
      let urem := delusers.filter (fun u => current.contains u)
      ({ret with changes := ret.changes
          ++ (if uadd ≠ [] then [("users_added", ChangeV.list uadd)] else [])
          ++ (if urem ≠ [] then [("users_removed", ChangeV.list urem)] else [])},
       tr ++ uadd.map (Call.groupAdduser name) ++ urem.map (Call.groupRemoveuser name))

/-- `group_present` (state, lines 818-941): existence phase driven by the
`group_exists` probe result, with an early return only for the dry-run
creation of a missing group; an existing (or just created) group proceeds
to the membership-adjustment phase. -/
def group_present (pages : Nat → Nat → List (String × List String))
    (gExists : Bool) (name : String) (addusers delusers : List String)
    (max_iterations : Nat) (test : Bool) : StateRet × List Call :=
  let probe := [Call.groupExists name]
  if gExists then
    groupMembershipPhase pages name addusers delusers max_iterations
      ⟨name, some true, "Group '" ++ name ++ "' already exists.", []⟩ probe
  else if test then
    (⟨name, none,
      "Group '" ++ name ++ "' would have been created. This does not check for existence of user accounts, so make sure they exist before adding them to the group",
      [("group_created", ChangeV.s name), ("members_added", ChangeV.list addusers)]⟩,
     probe)
  else
    groupMembershipPhase pages name addusers delusers max_iterations
      ⟨name, some true, "User '" ++ name ++ "' has been created.",
        [("group_created", ChangeV.s name)]⟩
      (probe ++ [Call.groupAdd name])

/-! ## config_imported and its rollback (state, lines 632-768) -/

/-! The added-key paths of `PatchedRecursiveDiffer.added` (state, lines
1097-1111, over the diff tree the salt library collaborator
`salt.utils.dictdiffer.RecursiveDictDiffer` builds with
`ignore_missing_keys=True`): a key of the new tree absent from the old tree
is an added path; a key present in both with dict values on both sides is
recursed into with the separator-joined prefix; other keys contribute
nothing. `added()` returns the paths sorted. -/
mutual
def addedEntries (old : JEntries) : JEntries → String → List String
  | .nil, _ => []
  | .cons k v rest, sep => addedOne old k v sep ++ addedEntries old rest sep
def addedOne (old : JEntries) (k : String) (v : JVal) (sep : String) : List String :=
  match old.lookup k with
  | none => [k]
  | some ov =>
    match ov, v with
    | .jdict oes, .jdict nes => (addedEntries oes nes sep).map (fun p => k ++ sep ++ p)
    | _, _ => []
end

/-- Python string `<` (lexicographic by code point). -/
def charListLt : List Char → List Char → Bool
  | [], [] => false
  | [], _ :: _ => true
  | _ :: _, [] => false
  | a :: as, b :: bs =>
    if a.toNat < b.toNat then true
    else if a = b then charListLt as bs
    else false

/-- Insertion into a sorted list of strings (stable, like Python `sorted`). -/
def insertSorted (s : String) : List String → List String
  | [] => [s]
  | t :: rest => if charListLt s.data t.data then s :: t :: rest else t :: insertSorted s rest

/-- Python `sorted` on strings. -/
def pySorted (l : List String) : List String :=
  l.foldl (fun acc s => insertSorted s acc) []

/-- `diff.added(separator=sep)`: the sorted added-key paths. -/
def addedPaths (old new : JEntries) (sep : String) : List String :=
  pySorted (addedEntries old new sep)

/-! The changed-key paths of the diff: keys present in both trees whose
values differ, recursing into keys whose values are dicts on both sides
(dot-joined, sorted). Models the salt library collaborator
`RecursiveDictDiffer.changed` with `ignore_missing_keys=True`; no claim
scenario has a nonempty changed list, so only its emptiness is exercised. -/
mutual
def changedEntries (old : JEntries) : JEntries → List String
  | .nil => []
  | .cons k v rest => changedOne old k v ++ changedEntries old rest
def changedOne (old : JEntries) (k : String) (v : JVal) : List String :=
  match old.lookup k with
  | none => []
  | some ov =>
    match ov, v with
    | .jdict oes, .jdict nes => (changedEntries oes nes).map (fun p => k ++ "." ++ p)
    | _, _ => if ov = v then [] else [k]
end

/-- `diff.changed()`: the sorted changed-key paths. -/
def changedPaths (old new : JEntries) : List String :=
  pySorted (changedEntries old new)

/-- The public functions of the execution module
`src/_modules/nextcloud_server.py`, i.e. the names reachable through the
Salt loader as `__salt__["nextcloud_server.<name>"]`. There is no function
named `delete`. -/
def moduleFunctions : List String :=
  ["occ", "check", "finish_upgrade", "install", "is_installed", "is_uptodate",
   "status", "upgrade", "version", "version_raw", "app_disable", "app_enable",
   "app_getpath", "app_install", "app_list", "app_remove", "app_update",
   "app_list_updates", "config_app_delete", "config_app_get", "config_app_set",
   "config_import", "config_list", "config_list_raw", "config_import_raw",
   "config_system_delete", "config_system_get", "config_system_set",
   "db_add_missing_columns", "db_add_missing_indices", "db_add_missing_primary_keys",
   "db_convert_filecache_bigint", "db_convert_mysql_charset", "db_convert_type",
   "files_cleanup", "files_repair_tree", "files_scan", "files_scan_app_data",
   "files_transfer_ownership", "group_add", "group_adduser", "group_delete",
   "group_exists", "group_list", "group_removeuser", "log_manage", "log_tail",
   "maintenance_data_fingerprint", "maintenance_mimetype_update_db",
   "maintenance_mimetype_update_js", "maintenance_mode", "is_maintenance",
   "maintenance_repair", "maintenance_theme_update", "maintenance_update_htaccess",
   "notification_generate", "preview_repair", "preview_reset_rendered_texts",
   "theming_config_get", "theming_config_set", "trashbin_cleanup",
   "trashbin_expire", "twofactorauth_enforce_status", "twofactorauth_enforce",
   "twofactorauth_state", "update_check", "user_add", "user_add_app_password",
   "user_delete", "user_disable", "user_enable", "user_exists", "user_info",
   "user_enabled", "user_lastseen", "user_list", "user_report",
   "user_resetpassword", "user_setting_delete", "user_setting_get",
   "user_setting_set"]

/-- Final outcome of a state-function run: a normal Salt return dictionary
with its call trace, or a crash — an exception the state's
`except (SaltInvocationError, CommandExecutionError)` clause does not
catch, here the loader `KeyError` for a missing module function. -/
inductive Outcome where
  | ret (r : StateRet) (calls : List Call)
  | crash (missing : String) (calls : List Call)
deriving DecidableEq, Repr

/-- The per-key deletion loop of the rollback (state, lines 745-750): each
added path (`separator="|||"`) starting with `system` triggers
`__salt__["nextcloud_server.delete"](key, separator="|||")`. The execution
module defines no function named `delete` (see `moduleFunctions`), so the
loader lookup raises `KeyError` at the first such path, before any deletion
is issued; paths of other scopes are skipped. -/
def revertDeletions : List String → Except String (List Call)
  | [] => .ok []
  | p :: rest =>
    if pyStartsWith p "system" then .error "nextcloud_server.delete"
    else revertDeletions rest

/-- `config_imported` called with an in-memory `config` (state, lines
632-768): pre-check gate, diff against the `config_list("all")` snapshot
(entering as `current`), no-op / dry-run / import branch, early return on
`force`, post-import consistency check (its outcome entering as
`checkAfter`), and otherwise the rollback: re-import the snapshot, then the
per-key deletion loop over the system-scope additions. -/
def config_imported (checkBefore checkAfter : Bool) (current : JEntries)
    (name : String) (config : JEntries) (force test : Bool) : Outcome :=
  let tr0 := [Call.checkStatus]
  if !checkBefore && !force then
    .ret ⟨name, some false,
      "Nextcloud reports errors in your current configuration, therefore cannot securely update configuration. Use force=True to override.",
      []⟩ tr0
  else
    let tr1 := tr0 ++ [Call.configList]
    let added := addedPaths current config "."
    let changed := changedPaths current config
    let r1 :=
      if added = [] ∧ changed = [] then
        ((⟨name, some true, "Configuration is already imported.", []⟩ : StateRet), tr1)
      else if test then
        (⟨name, none, "Configuration would have been updated.",
          [("added", ChangeV.list added), ("changed", ChangeV.list changed)]⟩, tr1)
      else
        (⟨name, some true, "Configuration has been updated.",
          [("added", ChangeV.list added), ("changed", ChangeV.list changed)]⟩,
         tr1 ++ [Call.configImportOcc (.jdict config)])
    if force then .ret r1.1 r1.2
    else
      let tr3 := r1.2 ++ [Call.checkFull]
      if checkAfter then .ret r1.1 tr3
      else
        let tr4 := tr3 ++ [Call.configImportOcc (.jdict current)]
        match revertDeletions (addedPaths current config "|||") with
        | .error missing => .crash missing tr4
        | .ok dels =>
          .ret ⟨name, some false,
            "Applied configuration successfully, but resulting configuration had errors. Reverted most of the changes, but added app settings stay. Use force: true to override this check and leave resulting configuration.",
            [("added", ChangeV.list (added.filter (fun x => !pyStartsWith x "system"))),
             ("changed", ChangeV.list [])]⟩ (tr4 ++ dels)

/-! ## Claims C1, C2, C3, C5 -/

/-- The group listing of the C1 scenario: the group `grp` with no members on
the first page. -/
def c1Pages : Nat → Nat → List (String × List String) := fun _ _ => [("grp", [])]

/-- C1 (refuting the claim at the failing input): with `__opts__["test"]`
set, `group_present` for the existing group `grp` with desired member
`alice` (not currently a member) issues the mutating `group_adduser` call
anyway — the membership-adjustment phase never consults the dry-run toggle
— and returns result `True` with a `users_added` change instead of the
would-change outcome `None`. -/
theorem c1_group_present_mutates_in_test_mode :
    (group_present c1Pages true "grp" ["alice"] [] 3 true).2
      = [Call.groupExists "grp", Call.groupList 500 0, Call.groupAdduser "grp" "alice"] ∧
    mutatingCalls (group_present c1Pages true "grp" ["alice"] [] 3 true).2
      = [Call.groupAdduser "grp" "alice"] ∧
    (group_present c1Pages true "grp" ["alice"] [] 3 true).1.result = some true ∧
    (group_present c1Pages true "grp" ["alice"] [] 3 true).1.changes
      = [("users_added", ChangeV.list ["alice"])] := by
  decide

/-- The pre-change snapshot of the C2 scenario: `{"system": {"a": "1"}}`. -/
def c2Current : JEntries :=
  .cons "system" (.jdict (.cons "a" (.jstr "1") .nil)) .nil

/-- The desired configuration of the C2 scenario:
`{"system": {"a": "1", "newkey": "x"}}` — one newly added system-scope key. -/
def c2Config : JEntries :=
  .cons "system" (.jdict (.cons "a" (.jstr "1")
    (.cons "newkey" (.jstr "x") .nil))) .nil

/-- C2 (evaluating the code at the failing input): the execution module has
no function named `delete`, and a bulk import that succeeds at the tool
level but fails the consistency check, with one newly added system-scope
key and `force` unset, re-imports the pre-change snapshot and then crashes
with the loader `KeyError` for `nextcloud_server.delete` — uncaught by the
state's exception handler — instead of deleting the key and returning the
failure result the claim describes. -/
theorem c2_rollback_calls_missing_delete :
    "delete" ∉ moduleFunctions ∧
    config_imported true false c2Current "cfg" c2Config false false
      = .crash "nextcloud_server.delete"
          [Call.checkStatus, Call.configList, Call.configImportOcc (.jdict c2Config),
           Call.checkFull, Call.configImportOcc (.jdict c2Current)] := by
  decide

/-- C3: a convergence operation whose desired state already equals the
observed state returns result `True` with empty changes and an
already-in-desired-state comment and issues zero mutating invocations:
`config_set` whenever the stored value equals the desired value (for any
valid or omitted vtype and either dry-run mode), and `user_present`
whenever the user exists and is already in the desired enabled state. -/
theorem c3_noop_when_state_matches :
    (∀ (name : String) (value : JVal) (vtype : Option String) (test : Bool)
       (currentVal : JVal),
       (∀ vt, vtype = some vt → ["string", "integer", "double", "boolean"].contains vt) →
       value = currentVal →
       (config_set name value vtype test currentVal).1.result = some true ∧
       (config_set name value vtype test currentVal).1.changes = [] ∧
       (config_set name value vtype test currentVal).1.comment
         = "Nextcloud system setting '" ++ name ++ "' is already in the correct state." ∧
       mutatingCalls (config_set name value vtype test currentVal).2 = []) ∧
    (∀ (name : String) (enabled test curEnabled : Bool),
       curEnabled = enabled →
       (user_present name enabled test true curEnabled).1.result = some true ∧
       (user_present name enabled test true curEnabled).1.changes = [] ∧
       (user_present name enabled test true curEnabled).1.comment
         = "User '" ++ name ++ "' already exists." ++ " The account is already "
           ++ (if enabled then "enable" else "disable") ++ "d." ∧
       mutatingCalls (user_present name enabled test true curEnabled).2 = []) := by
  constructor
  · intro name value vtype test currentVal hvt hval
    subst hval
    match vtype with
    | none =>
      simp [config_set, configSetCore, mutatingCalls, Call.isMutating]
    | some vt =>
      have h' : vt = "string" ∨ vt = "integer" ∨ vt = "double" ∨ vt = "boolean" := by
        simpa using hvt vt rfl
      simp [config_set, configSetCore, mutatingCalls, Call.isMutating, h']
  · intro name enabled test curEnabled hcur
    subst hcur
    simp [user_present, mutatingCalls, Call.isMutating]

/-- Witness for `c3_noop_when_state_matches`: both operations at concrete
already-matching inputs. -/
theorem c3_noop_when_state_matches_witness :
    ((config_set "loglevel" (.jint 2) (some "integer") false (.jint 2)).1.result
        = some true ∧
      (config_set "loglevel" (.jint 2) (some "integer") false (.jint 2)).1.changes = [] ∧
      (config_set "loglevel" (.jint 2) (some "integer") false (.jint 2)).1.comment
        = "Nextcloud system setting '" ++ "loglevel" ++ "' is already in the correct state." ∧
      mutatingCalls (config_set "loglevel" (.jint 2) (some "integer") false (.jint 2)).2
        = []) ∧
    ((user_present "alice" true true true true).1.result = some true ∧
      (user_present "alice" true true true true).1.changes = [] ∧
      (user_present "alice" true true true true).1.comment
        = "User '" ++ "alice" ++ "' already exists." ++ " The account is already "
          ++ (if true then "enable" else "disable") ++ "d." ∧
      mutatingCalls (user_present "alice" true true true true).2 = []) :=
  ⟨c3_noop_when_state_matches.1 "loglevel" (.jint 2) (some "integer") false (.jint 2)
      (by intro vt h; cases h; decide) rfl,
   c3_noop_when_state_matches.2 "alice" true true true rfl⟩

/-- C5: with `addusers`/`delusers` given, `group_present` pages through
`group_list` with page size 500 at offsets `0, 500, 1000, ...` for at most
`max_iterations` iterations. For a group first listed on the page at offset
1000 (e.g. at listing offset 1200), `max_iterations = 3` finds the member
list and the operation proceeds (here adding the missing member), while
`max_iterations = 2` stops after offsets 0 and 500 and returns a
distinguishable inconclusive failure — result `False` with a comment
telling the caller to increase `max_iterations` — with no mutating call and
without treating the member list as empty. -/
theorem c5_group_present_pagination
    (pages : Nat → Nat → List (String × List String)) (g u : String)
    (ms : List String)
    (h0 : lookupGroup (pages 500 0) g = none)
    (h1 : lookupGroup (pages 500 500) g = none)
    (h2 : lookupGroup (pages 500 1000) g = some ms)
    (hu : ms.contains u = false) :
    ((group_present pages true g [u] [] 3 false).2
        = [Call.groupExists g, Call.groupList 500 0, Call.groupList 500 500,
           Call.groupList 500 1000, Call.groupAdduser g u] ∧
      (group_present pages true g [u] [] 3 false).1.result = some true ∧
      (group_present pages true g [u] [] 3 false).1.changes
        = [("users_added", ChangeV.list [u])]) ∧
    ((group_present pages true g [u] [] 2 false).2
        = [Call.groupExists g, Call.groupList 500 0, Call.groupList 500 500] ∧
      mutatingCalls (group_present pages true g [u] [] 2 false).2 = [] ∧
      (group_present pages true g [u] [] 2 false).1.result = some false ∧
      (group_present pages true g [u] [] 2 false).1.comment
        = "Group '" ++ g ++ "' already exists."
          ++ " Could not find the group member list though. In case you have more than "
          ++ toString (500 * 2) ++ " groups, try to increase max_iterations.") := by
  have e3 : groupFindAux pages g 0 3
      = (some ms, [Call.groupList 500 0, Call.groupList 500 500, Call.groupList 500 1000]) := by
    simp [groupFindAux, h0, h1, h2]
  have e2 : groupFindAux pages g 0 2
      = (none, [Call.groupList 500 0, Call.groupList 500 500]) := by
    simp [groupFindAux, h0, h1]
  have hu' : u ∉ ms := by simpa using hu
  constructor
  · simp [group_present, groupMembershipPhase, e3, hu', mutatingCalls, Call.isMutating]
  · simp [group_present, groupMembershipPhase, e2, mutatingCalls, Call.isMutating]

/-- Witness for `c5_group_present_pagination`: a listing whose only page
with the group is the one at offset 1000, the group holding the member
`bob` but not the desired `alice`. -/
theorem c5_group_present_pagination_witness :
    ((group_present (fun _ off => if off == 1000 then [("grp", ["bob"])] else [])
        true "grp" ["alice"] [] 3 false).1.result = some true ∧
      (group_present (fun _ off => if off == 1000 then [("grp", ["bob"])] else [])
        true "grp" ["alice"] [] 2 false).1.result = some false) := by
  have h := c5_group_present_pagination
    (fun _ off => if off == 1000 then [("grp", ["bob"])] else [])
    "grp" "alice" ["bob"] (by decide) (by decide) (by decide) (by decide)
  exact ⟨h.1.2.1, h.2.2.2.1⟩

end Nextcloud
